import Mathlib

/-!
Verification development for the browser-driven ChatGPT client
(`src/chatgpt_web.py`).  Each Python routine that the specification
talks about is shallowly embedded as an executable Lean function over an
explicit environment (the page/DOM observed at each instant, the outcome
of each browser-launch or submission attempt), translated line by line
from the source.  Theorems at the end settle the specification claims.
-/

namespace ChatGPTWeb

/-- Does `pat` occur as a contiguous run inside `s`?  (List-level helper
for Python's substring test, written structurally so that it evaluates
inside the kernel.) -/
def containsAux (pat : List Char) : List Char → Bool
  | [] => pat.isEmpty
  | c :: rest => pat.isPrefixOf (c :: rest) || containsAux pat rest

/-- Python's substring test `pat in s`. -/
def strContains (s pat : String) : Bool :=
  containsAux pat.data s.data

/-- Python's `str.strip()`: drop leading and trailing whitespace.
(Written over the character list so that it evaluates inside the
kernel; Lean's built-in `String.trim` works on byte positions and does
not reduce definitionally.) -/
def strTrim (s : String) : String :=
  ⟨((s.data.dropWhile Char.isWhitespace).reverse.dropWhile
      Char.isWhitespace).reverse⟩

/-! ## `_format_messages` (src/chatgpt_web.py lines 508-556)

LangChain message objects are modelled as a closed tagged variant: the
code branches on whether the class name contains `System` or `Human`,
and every other object (dicts, plain strings, ...) takes the same
user-accumulation branch, so three tags with a content string capture
the routine exactly.  (The `else` arm at line 535 for objects without
`__class__` is unreachable in Python and is not modelled.) -/

inductive Msg where
  | system (c : String)
  | human (c : String)
  | other (c : String)
deriving DecidableEq, Repr

def Msg.content : Msg → String
  | .system c => c
  | .human c => c
  | .other c => c

def Msg.isSystem : Msg → Bool
  | .system _ => true
  | _ => false

/-- The accumulation loop of `_format_messages` (lines 513-539):
`system_content` is overwritten by each System message, while Human and
other messages are appended to `user_content` with a `"\n\n"` separator
(first one plain). -/
def formatLoop : List Msg → Option String → Option String →
    Option String × Option String
  | [], sc, uc => (sc, uc)
  | .system c :: rest, _, uc => formatLoop rest (some c) uc
  | .human c :: rest, sc, uc =>
    match uc with
    | none => formatLoop rest sc (some c)
    | some u => formatLoop rest sc (some (u ++ "\n\n" ++ c))
  | .other c :: rest, sc, uc =>
    match uc with
    | none => formatLoop rest sc (some c)
    | some u => formatLoop rest sc (some (u ++ "\n\n" ++ c))

/-- Python `"\n\n".join`. -/
def joinSep : List String → String
  | [] => ""
  | [c] => c
  | c :: rest => c ++ "\n\n" ++ joinSep rest

/-- Python truthiness of the accumulated `Optional[str]` variables:
`None` and the empty string are falsy. -/
def truthy : Option String → Bool
  | none => false
  | some s => s != ""

/-- `_format_messages` (lines 508-556): run the accumulation loop, then
the four-way branch at lines 541-556; the final arm re-reads every
message content and joins with `"\n\n"`. -/
def formatMessages (messages : List Msg) : String :=
  let r := formatLoop messages none none
  if truthy r.1 && truthy r.2 then
    r.1.getD "" ++ "\n\n" ++ r.2.getD ""
  else if truthy r.2 then
    r.2.getD ""
  else if truthy r.1 then
    r.1.getD ""
  else
    joinSep (messages.map Msg.content)

/-- The content of the last system message of the list, if any. -/
def lastSysContent : List Msg → Option String
  | [] => none
  | .system c :: rest =>
    match lastSysContent rest with
    | some s => some s
    | none => some c
  | _ :: rest => lastSysContent rest

/-- The contents of the non-system messages, in their original order. -/
def nonSysContents (l : List Msg) : List String :=
  (l.filter fun m => !m.isSystem).map Msg.content

/-- Spec-side system part: the content of the last system message, when
non-empty (Python truthiness). -/
def specSystemPart (l : List Msg) : Option String :=
  match lastSysContent l with
  | none => none
  | some s => if s = "" then none else some s

/-- Spec-side user part: the non-system message contents joined with
`"\n\n"`, when there is at least one such message and the join is
non-empty (Python truthiness). -/
def specUserPart (l : List Msg) : Option String :=
  match nonSysContents l with
  | [] => none
  | cs => if joinSep cs = "" then none else some (joinSep cs)

/-- What the user accumulator of `formatLoop` computes, as a fold. -/
def appendAll (uc : Option String) (cs : List String) : Option String :=
  cs.foldl (fun acc c =>
    match acc with
    | none => some c
    | some u => some (u ++ "\n\n" ++ c)) uc

/-! ## Input-field locator inside `_send_message` (lines 207-252)

Each selector strategy is observed through the environment: the
element count seen by `locator(sel).first.count()`, whether
`wait_for(state=visible, 5000)` succeeded (its failure is the only raise
in the `try`, caught by the `except` which resets `textarea` to `None`),
and the subsequent `is_visible()` / `is_enabled()` results. -/

structure StratObs where
  cnt : Nat
  waitVisibleOk : Bool
  isVisible : Bool
  isEnabled : Bool
deriving DecidableEq, Repr

def textareaSelectors : List String :=
  [ "div[contenteditable=\"true\"]",
    "div[contenteditable][role=\"textbox\"]",
    "textarea[placeholder*=\"Message\"]",
    "textarea[id*=\"prompt\"]",
    "textarea" ]

/-- A strategy attempt is accepted (loop `break` at line 224) when the
count is positive, the visibility wait succeeded, `is_visible()` holds
and either `is_enabled()` holds or the selector mentions
`contenteditable` (line 223). -/
def acceptStrat (sel : String) (o : StratObs) : Bool :=
  decide (0 < o.cnt) && o.waitVisibleOk && o.isVisible &&
    (o.isEnabled || strContains sel "contenteditable")

/-- The selector loop (lines 215-227).  The Python variable `textarea`
is assigned the locator at line 218 *before* any check, so a strategy
whose count is zero still leaves `textarea` bound to its (empty)
locator; only an exception in the `try` resets it to `None`.  Returns
the final `textarea` binding (identified by its selector) and whether
the loop exited through the acceptance `break`. -/
def locateLoopAux (env : String → StratObs) :
    Option String → List String → Option String × Bool
  | ta, [] => (ta, false)
  | _, sel :: rest =>
    let o := env sel
    if 0 < o.cnt then
      if o.waitVisibleOk then
        if o.isVisible then
          if o.isEnabled || strContains sel "contenteditable" then
            (some sel, true)
          else
            locateLoopAux env (some sel) rest
        else
          locateLoopAux env (some sel) rest
      else
        locateLoopAux env none rest
    else
      locateLoopAux env (some sel) rest

/-- One element returned by the fallback
`query_selector_all('div[contenteditable], textarea, input[type="text"]')`
scan: its rendered-size visibility, and the selector string the
page-side classifier maps it to (`none` models the JS `null`). -/
structure FbElem where
  visible : Bool
  kind : Option String
deriving DecidableEq, Repr

/-- The last-resort fallback scan (lines 230-249): walk the last five
matched inputs in reverse order and take the first that is visible and
classifiable; the chosen locator is `locator(kind).last`. -/
def fallbackScan (inputs : List FbElem) : Option String :=
  if 0 < inputs.length then
    match (inputs.reverse.take 5).find? (fun e => e.visible && e.kind.isSome) with
    | some e => e.kind
    | none => none
  else
    none

/-- The locator object finally bound to `textarea`: `.first` of a
strategy selector, or `.last` of the fallback-classified selector. -/
inductive LocRef where
  | first (sel : String)
  | last (sel : String)
deriving DecidableEq, Repr

def inputNotFoundMsg : String :=
  "Could not find ChatGPT input field. The page structure may have changed."

/-- Lines 207-252 of `_send_message`: strategy loop, then the fallback
scan — which runs only when `textarea is None` — then the
page-structure-changed failure when still `None`. -/
def locateTextarea (env : String → StratObs) (inputs : List FbElem) :
    Except String LocRef :=
  let r := locateLoopAux env none textareaSelectors
  let ta : Option LocRef :=
    match r.1 with
    | some sel => some (LocRef.first sel)
    | none =>
      match fallbackScan inputs with
      | some sel => some (LocRef.last sel)
      | none => none
  match ta with
  | some ref => Except.ok ref
  | none => Except.error inputNotFoundMsg

/-! ## Response polling inside `_send_message` (lines 298-391)

The page is modelled as a time-indexed DOM observation: for each of the
five `response_selectors` (indices 0-4, index 0 being
`div[data-message-author-role="assistant"]`), the element count and the
`innerText` of the last matching element, plus whether any of the three
`loading_selectors` matches.  The clock advances by the duration (in
seconds) of every `sleep` the code performs, so queries separated by a
sleep may observe different DOM states. -/

structure Dom where
  counts : List Nat
  texts : List String
  busy : Bool
deriving DecidableEq, Repr

def responseIdx : List Nat := [0, 1, 2, 3, 4]

/-- The inner candidate scan of one poll iteration (lines 319-336):
walk the response selectors at the current clock `t`; when a selector
shows more elements than the baseline and the trimmed last text is
non-empty and longer than 10, sleep 3 seconds and re-check the busy
indicators; accept only if none is present, otherwise continue with the
next selector (at the advanced clock).  Returns (accepted, clock). -/
def tryAcceptFrom (env : Nat → Dom) (initial : Nat) :
    List Nat → Nat → Bool × Nat
  | [], t => (false, t)
  | i :: rest, t =>
    let d := env t
    if initial < d.counts.getD i 0 then
      let text := d.texts.getD i ""
      if text ≠ "" ∧ strTrim text ≠ "" ∧ 10 < (strTrim text).length then
        if (env (t + 3)).busy then
          tryAcceptFrom env initial rest (t + 3)
        else
          (true, t + 3)
      else
        tryAcceptFrom env initial rest t
    else
      tryAcceptFrom env initial rest t

def maxPollWait : Nat := 90

/-- The `while waited < max_wait` poll loop (lines 313-342), written
with a fuel parameter for structural recursion; `waited` grows by 2
each iteration, so any fuel above 45 makes the fuel arm unreachable
from `waited = 0` and the function coincides with the source loop.
(The `current_message_count` query at lines 314-317 is computed by the
source and never used, so it is not modelled.)  Returns
(`response_found`, clock on exit). -/
def pollLoopF (env : Nat → Dom) (initial : Nat) :
    Nat → Nat → Nat → Bool × Nat
  | 0, t, _ => (false, t)
  | fuel + 1, t, waited =>
    if waited < maxPollWait then
      let r := tryAcceptFrom env initial responseIdx t
      if r.1 then
        (true, r.2)
      else
        pollLoopF env initial fuel (r.2 + 2) (waited + 2)
    else
      (false, t)

/-- The post-loop extraction pass (lines 344-357): for each selector,
if its count still exceeds the baseline and the first text read passes
the emptiness and length-10 checks, sleep 2 seconds, re-read the last
element text, and return it trimmed if it is merely non-empty (no
length or busy re-check).  Returns the extracted text, if any, and the
clock. -/
def extractFrom (env : Nat → Dom) (initial : Nat) :
    List Nat → Nat → Option String × Nat
  | [], t => (none, t)
  | i :: rest, t =>
    let d := env t
    if initial < d.counts.getD i 0 then
      let rt := d.texts.getD i ""
      if rt ≠ "" ∧ strTrim rt ≠ "" ∧ 10 < (strTrim rt).length then
        let rt2 := (env (t + 2)).texts.getD i ""
        if rt2 ≠ "" ∧ strTrim rt2 ≠ "" then
          (some (strTrim rt2), t + 2)
        else
          extractFrom env initial rest (t + 2)
      else
        extractFrom env initial rest t
    else
      extractFrom env initial rest t

/-- The final full-page JS query (lines 359-383): the first selector
whose count exceeds the baseline supplies the last element's
`innerText`, else the empty string. -/
def pageTextEval (env : Nat → Dom) (initial : Nat) (t : Nat) : String :=
  let d := env t
  match responseIdx.find? (fun i => initial < d.counts.getD i 0) with
  | some i => d.texts.getD i ""
  | none => ""

inductive SendOutcome where
  | ok (text : String)
  | err (msg : String)
deriving DecidableEq, Repr

def noResponseMsg : String :=
  "No response received from ChatGPT. The page structure may have changed."

/-- Lines 298-388 of `_send_message`, from the 3-second
`wait_for_timeout` before the poll loop to the final raise.  As in the
source, the extraction pass and the page-text query run whether or not
the loop set `response_found`; `response_found` only decides when the
loop stops. -/
def pollForResponse (env : Nat → Dom) (initial : Nat) : SendOutcome :=
  let r := pollLoopF env initial 46 3 0
  match extractFrom env initial responseIdx r.2 with
  | (some s, _) => SendOutcome.ok s
  | (none, t2) =>
    let pt := pageTextEval env initial t2
    if pt ≠ "" ∧ strTrim pt ≠ "" ∧ 10 < (strTrim pt).length then
      SendOutcome.ok (strTrim pt)
    else
      SendOutcome.err noResponseMsg

/-! ## `invoke` and `_run_in_thread` (lines 416-506)

`_send_message` and the event-loop machinery around it are observed
through an oracle `attempts : Nat → Attempt` giving the outcome of each
successive submission attempt.  `_send_message` itself only ever raises
`ValueError` (its two trailing handlers convert everything), so raw
pipe errors reaching `invoke` / `_run_in_thread` come from the loop
machinery; both kinds are in the oracle's codomain. -/

inductive Attempt where
  | ok (text : String)
  /-- `BrokenPipeError`, or `OSError` with `errno == 32`. -/
  | rawPipe
  /-- `RuntimeError`, or `OSError` with `errno != 32` (both are caught
  by the first `except` tuple of `invoke` and fail its pipe test). -/
  | sysErr (msg : String)
  /-- `ValueError` raised by `_send_message`. -/
  | valueErr (msg : String)
deriving DecidableEq, Repr

/-- `_run_in_thread` (lines 480-506): run one attempt in a fresh loop;
a raw pipe error triggers a reset and a single in-thread retry whose
own failure propagates.  Returns the propagated outcome and the next
unused attempt index. -/
def runInThread (attempts : Nat → Attempt) (k : Nat) : Attempt × Nat :=
  match attempts k with
  | Attempt.rawPipe => (attempts (k + 1), k + 2)
  | a => (a, k + 1)

inductive InvokeResult where
  | ok (text : String)
  | err (msg : String)
deriving DecidableEq, Repr

/-- The message `invoke` wraps around a failed pipe-retry
(lines 452-456 and 473-477). -/
def connRetryMsg (m : String) : String :=
  "Connection error with ChatGPT web app. Please try again. " ++
  "If the error persists, make sure you're logged into ChatGPT. " ++
  "Error: " ++ m

/-- `str(e)` for a raw broken-pipe error. -/
def rawPipeStr : String := "[Errno 32] Broken pipe"

/-- The retry at lines 447-456 / 468-477: one more submission inside a
`try` whose `except Exception` turns any failure into the
connection-error `ValueError`. -/
def pipeRetry (attempts : Nat → Attempt) (k : Nat) : InvokeResult × Nat :=
  match attempts k with
  | Attempt.ok t => (InvokeResult.ok t, k + 1)
  | Attempt.rawPipe => (InvokeResult.err (connRetryMsg rawPipeStr), k + 1)
  | Attempt.sysErr m => (InvokeResult.err (connRetryMsg m), k + 1)
  | Attempt.valueErr m => (InvokeResult.err (connRetryMsg m), k + 1)

/-- The unconditional retry of the non-pipe branch (lines 457-460):
one more submission, not wrapped in any handler, so its failure
surfaces as-is. -/
def bareRetry (attempts : Nat → Attempt) (k : Nat) : InvokeResult × Nat :=
  match attempts k with
  | Attempt.ok t => (InvokeResult.ok t, k + 1)
  | Attempt.rawPipe => (InvokeResult.err rawPipeStr, k + 1)
  | Attempt.sysErr m => (InvokeResult.err m, k + 1)
  | Attempt.valueErr m => (InvokeResult.err m, k + 1)

/-- `invoke` (lines 416-478).  `getLoopRaises` models
`asyncio.get_event_loop()` raising `RuntimeError` before any
submission; `loopRunning` selects the thread-pool path.  Returns the
caller-visible result and the number of submission attempts consumed. -/
def invokeModel (getLoopRaises loopRunning : Bool)
    (attempts : Nat → Attempt) : InvokeResult × Nat :=
  let first : Attempt × Nat :=
    if getLoopRaises then
      (Attempt.sysErr "There is no current event loop in thread", 0)
    else if loopRunning then
      runInThread attempts 0
    else
      (attempts 0, 1)
  match first.1 with
  | Attempt.ok t => (InvokeResult.ok t, first.2)
  | Attempt.rawPipe =>
    -- lines 429-456: caught by the `(RuntimeError, BrokenPipeError,
    -- OSError)` tuple, passes the pipe test, reset then retry once
    pipeRetry attempts first.2
  | Attempt.sysErr _ =>
    -- lines 457-460: same tuple, fails the pipe test, bare retry
    bareRetry attempts first.2
  | Attempt.valueErr m =>
    -- lines 461-478: `except Exception`, retry only when the message
    -- mentions a broken pipe, otherwise re-raise
    if strContains m "Broken pipe" || strContains m "Errno 32" then
      pipeRetry attempts first.2
    else
      (InvokeResult.err m, first.2)

/-! ## `_initialize` (lines 26-155)

The session object is the triple of fields `invoke` mutates
(`_initialized`, `context`, `page`); browser handles are identified by
abstract numeric ids.  The world is observed through `InitEnv`: the
outcome of each of the (at most two) launch attempts, the page the
persistent context opens with, whether navigation times out, whether a
login indicator is visible, and — during the visible-mode login wait —
whether the chat input is visible at a given value of the `waited`
counter. -/

structure SessionState where
  initialized : Bool
  context : Option Nat
  page : Option Nat
deriving DecidableEq, Repr

inductive LaunchOutcome where
  | ok (ctx : Nat)
  | err (msg : String)
deriving DecidableEq, Repr

structure InitEnv where
  firstLaunch : LaunchOutcome
  secondLaunch : LaunchOutcome
  /-- `context.pages[0]` when the profile opens with a page. -/
  existingPage : Option Nat
  /-- id of the page `new_page()` would create. -/
  newPageId : Nat
  /-- `page.goto` raises `PlaywrightTimeoutError`. -/
  gotoTimesOut : Bool
  /-- some login indicator is present and visible (lines 100-114). -/
  needsLogin : Bool
  /-- during the login wait: is the chat input present and visible when
  the `waited` counter has the given value? -/
  inputVisible : Nat → Bool

/-- Result of one `_initialize` call: the raised error (if any), the
session fields afterwards, and instrumentation for the claims — how
many launch attempts ran, how many forced cleanup passes (the
`except`-branch cleanup of lines 71-76) ran, and how many login-wait
polls ran. -/
structure InitOut where
  result : Except String Unit
  state : SessionState
  launches : Nat
  forcedCleanups : Nat
  loginPolls : Nat
deriving Repr

def failedStartMsg (m : String) : String :=
  "Failed to start browser. Another instance may be running. " ++
  "Please close any existing browser windows and try again. Error: " ++ m

def navFailMsg : String :=
  "Failed to load ChatGPT. Please check your internet connection."

def headlessLoginMsg : String :=
  "ChatGPT requires login. Please:\n" ++
  "1. Set headless=False in the code to see the browser\n" ++
  "2. Or manually log in to ChatGPT in a browser first\n" ++
  "3. The persistent context will save your session\n" ++
  "4. Restart the application after logging in once"

def loginTimeoutMsg : String :=
  "Login timeout. Please ensure you're logged into ChatGPT.\n" ++
  "Tip: Run with headless=False to see the browser and login manually."

def maxLoginWait : Nat := 300

/-- The visible-mode login wait (lines 125-138): `while waited <
max_wait`, sleep 2, `waited += 2`, then check the chat input; `break`
on success, and the `while`-`else` raises the login timeout when the
bound elapses without a break.  Fuel keeps the recursion structural;
`waited` grows by 2 per iteration, so fuel 151 is unreachable from
`waited = 0`.  Returns (login detected, polls performed). -/
def loginWaitF (visible : Nat → Bool) : Nat → Nat → Nat → Bool × Nat
  | 0, _, polls => (false, polls)
  | fuel + 1, waited, polls =>
    if waited < maxLoginWait then
      let w := waited + 2
      if visible w then
        (true, polls + 1)
      else
        loginWaitF visible fuel w (polls + 1)
    else
      (false, polls)

/-- Whether the launch-failure message indicates the profile lock
(line 70). -/
def lockIndicated (m : String) : Bool :=
  strContains m "ProcessSingleton" || strContains m "SingletonLock"

/-- The tail of `_initialize` once a context is launched (lines
92-155): pick or create the page, navigate (a timeout raise is caught
at line 154 and converted), run the login check, and on success set
`_initialized = True`. -/
def initAfterLaunch (headless : Bool) (env : InitEnv) (s : SessionState)
    (ctx launches cleanups : Nat) : InitOut :=
  let page := match env.existingPage with
    | some p => p
    | none => env.newPageId
  let s1 : SessionState := { s with context := some ctx, page := some page }
  if env.gotoTimesOut then
    { result := Except.error navFailMsg, state := s1,
      launches := launches, forcedCleanups := cleanups, loginPolls := 0 }
  else if env.needsLogin then
    if !headless then
      let w := loginWaitF env.inputVisible 151 0 0
      if w.1 then
        { result := Except.ok (), state := { s1 with initialized := true },
          launches := launches, forcedCleanups := cleanups,
          loginPolls := w.2 }
      else
        { result := Except.error loginTimeoutMsg, state := s1,
          launches := launches, forcedCleanups := cleanups,
          loginPolls := w.2 }
    else
      { result := Except.error headlessLoginMsg, state := s1,
        launches := launches, forcedCleanups := cleanups, loginPolls := 0 }
  else
    { result := Except.ok (), state := { s1 with initialized := true },
      launches := launches, forcedCleanups := cleanups, loginPolls := 0 }

/-- `_initialize` (lines 26-155).  An already-initialized session
returns at once (line 28-29).  Otherwise: pre-launch cleanup (lines
36-58, which touches only the OS, not the session fields), first launch
attempt; on a lock-indicating failure, one forced cleanup pass and
exactly one relaunch, whose failure raises the configuration error; any
other launch failure is re-raised as-is (line 90). -/
def initModel (headless : Bool) (env : InitEnv) (s : SessionState) :
    InitOut :=
  if s.initialized then
    { result := Except.ok (), state := s,
      launches := 0, forcedCleanups := 0, loginPolls := 0 }
  else
    match env.firstLaunch with
    | LaunchOutcome.ok ctx => initAfterLaunch headless env s ctx 1 0
    | LaunchOutcome.err m =>
      if lockIndicated m then
        match env.secondLaunch with
        | LaunchOutcome.ok ctx => initAfterLaunch headless env s ctx 2 1
        | LaunchOutcome.err m2 =>
          { result := Except.error (failedStartMsg m2), state := s,
            launches := 2, forcedCleanups := 1, loginPolls := 0 }
      else
        { result := Except.error m, state := s,
          launches := 1, forcedCleanups := 0, loginPolls := 0 }

/-! ## Concrete environments used by witnesses and counterexamples -/

/-- Locator scenario: the first (contenteditable) strategy matches only
a hidden element — its 5-second visibility wait times out — while the
placeholder-matched textarea strategy matches a visible, enabled
element; every other selector matches nothing. -/
def envHiddenThenVisible : String → StratObs := fun sel =>
  if sel = "div[contenteditable=\"true\"]" then
    { cnt := 1, waitVisibleOk := false, isVisible := false,
      isEnabled := false }
  else if sel = "textarea[placeholder*=\"Message\"]" then
    { cnt := 1, waitVisibleOk := true, isVisible := true,
      isEnabled := true }
  else
    { cnt := 0, waitVisibleOk := true, isVisible := false,
      isEnabled := false }

/-- Locator scenario: no strategy matches any element at all. -/
def envNoStrategy : String → StratObs := fun _ =>
  { cnt := 0, waitVisibleOk := true, isVisible := false,
    isEnabled := false }

/-- A page whose generic input scan would find one visible
contenteditable element. -/
def fbVisibleInput : List FbElem :=
  [{ visible := true, kind := some "div[contenteditable=\"true\"]" }]

/-- Poll scenario for C1: an assistant turn with long text is present
from the start, but a busy indicator never clears, so the loop's
acceptance conditions are never met and the poll times out. -/
def envBusyForever : Nat → Dom := fun _ =>
  { counts := [1, 0, 0, 0, 0],
    texts := ["This is a long answer.", "", "", "", ""],
    busy := true }

/-- Poll scenario for C2: the first poll accepts a long text with no
busy indicator, but by the post-loop re-read (clock 8) the last
assistant element's text has changed to the short `"Hi"`. -/
def envShrinksToHi : Nat → Dom := fun t =>
  { counts := [1, 0, 0, 0, 0],
    texts := [if 8 ≤ t then "Hi" else "A sufficiently long reply",
      "", "", "", ""],
    busy := false }

/-- Poll scenario: a page on which nothing ever appears. -/
def envEmptyPage : Nat → Dom := fun _ =>
  { counts := [0, 0, 0, 0, 0], texts := ["", "", "", "", ""],
    busy := false }

/-- Poll scenario: an immediately available, settled long response. -/
def envQuickReply : Nat → Dom := fun _ =>
  { counts := [1, 0, 0, 0, 0],
    texts := ["X is defined as the usual thing.", "", "", "", ""],
    busy := false }

/-- Submission oracle for C3: two consecutive raw broken-pipe faults,
then a success. -/
def attemptsTwoPipes : Nat → Attempt := fun k =>
  match k with
  | 0 => Attempt.rawPipe
  | 1 => Attempt.rawPipe
  | _ => Attempt.ok "hello"

/-- Submission oracle: every attempt fails with a raw broken pipe. -/
def attemptsAllPipes : Nat → Attempt := fun _ => Attempt.rawPipe

/-- An already-initialized session holding a context and a page. -/
def openSession : SessionState :=
  { initialized := true, context := some 7, page := some 3 }

/-- A fresh, never-initialized session. -/
def freshSession : SessionState :=
  { initialized := false, context := none, page := none }

/-- Launch environment for C8: both launch attempts fail with the
profile-lock signature. -/
def envLockedTwice : InitEnv :=
  { firstLaunch := LaunchOutcome.err "Browser error: ProcessSingleton",
    secondLaunch := LaunchOutcome.err "Browser error: ProcessSingleton",
    existingPage := none, newPageId := 1, gotoTimesOut := false,
    needsLogin := false, inputVisible := fun _ => false }

/-- Launch environment for C9: launch succeeds, navigation succeeds,
and a login indicator is visible; the chat input never appears. -/
def envLoginNeeded : InitEnv :=
  { firstLaunch := LaunchOutcome.ok 7,
    secondLaunch := LaunchOutcome.ok 8,
    existingPage := some 1, newPageId := 2, gotoTimesOut := false,
    needsLogin := true, inputVisible := fun _ => false }

/-! ## Lemmas about `_format_messages` -/

theorem formatLoop_fst (l : List Msg) : ∀ (sc uc : Option String),
    (formatLoop l sc uc).1 =
      match lastSysContent l with
      | some s => some s
      | none => sc := by
  induction l with
  | nil => intro sc uc; rfl
  | cons m rest ih =>
    intro sc uc
    cases m with
    | system c =>
      show (formatLoop rest (some c) uc).1 = _
      rw [ih]
      cases h : lastSysContent rest <;> simp [lastSysContent, h]
    | human c =>
      cases uc with
      | none =>
        show (formatLoop rest sc (some c)).1 = _
        rw [ih]; rfl
      | some u =>
        show (formatLoop rest sc (some (u ++ "\n\n" ++ c))).1 = _
        rw [ih]; rfl
    | other c =>
      cases uc with
      | none =>
        show (formatLoop rest sc (some c)).1 = _
        rw [ih]; rfl
      | some u =>
        show (formatLoop rest sc (some (u ++ "\n\n" ++ c))).1 = _
        rw [ih]; rfl

theorem nonSysContents_cons_system (c : String) (rest : List Msg) :
    nonSysContents (.system c :: rest) = nonSysContents rest := by
  simp [nonSysContents, Msg.isSystem]

theorem nonSysContents_cons_human (c : String) (rest : List Msg) :
    nonSysContents (.human c :: rest) = c :: nonSysContents rest := by
  simp [nonSysContents, Msg.isSystem, Msg.content]

theorem nonSysContents_cons_other (c : String) (rest : List Msg) :
    nonSysContents (.other c :: rest) = c :: nonSysContents rest := by
  simp [nonSysContents, Msg.isSystem, Msg.content]

theorem formatLoop_snd (l : List Msg) : ∀ (sc uc : Option String),
    (formatLoop l sc uc).2 = appendAll uc (nonSysContents l) := by
  induction l with
  | nil => intro sc uc; rfl
  | cons m rest ih =>
    intro sc uc
    cases m with
    | system c =>
      show (formatLoop rest (some c) uc).2 = _
      rw [ih, nonSysContents_cons_system]
    | human c =>
      rw [nonSysContents_cons_human]
      cases uc with
      | none =>
        show (formatLoop rest sc (some c)).2 = _
        rw [ih]; rfl
      | some u =>
        show (formatLoop rest sc (some (u ++ "\n\n" ++ c))).2 = _
        rw [ih]; rfl
    | other c =>
      rw [nonSysContents_cons_other]
      cases uc with
      | none =>
        show (formatLoop rest sc (some c)).2 = _
        rw [ih]; rfl
      | some u =>
        show (formatLoop rest sc (some (u ++ "\n\n" ++ c))).2 = _
        rw [ih]; rfl

theorem joinSep_shift (u c : String) (cs : List String) :
    joinSep ((u ++ "\n\n" ++ c) :: cs) = u ++ "\n\n" ++ joinSep (c :: cs) := by
  cases cs with
  | nil => rfl
  | cons d ds => simp only [joinSep, String.append_assoc]

theorem appendAll_some (cs : List String) : ∀ (u : String),
    appendAll (some u) cs = some (joinSep (u :: cs)) := by
  induction cs with
  | nil => intro u; rfl
  | cons c cs ih =>
    intro u
    show appendAll (some (u ++ "\n\n" ++ c)) cs = _
    rw [ih, joinSep_shift]
    rfl

theorem appendAll_none (cs : List String) :
    appendAll none cs =
      match cs with
      | [] => none
      | c :: cs2 => some (joinSep (c :: cs2)) := by
  cases cs with
  | nil => rfl
  | cons c cs2 =>
    show appendAll (some c) cs2 = _
    rw [appendAll_some]

/-- The full behaviour of `_format_messages`, phrased through the
spec-side parts: the (non-empty) last system content and the
(non-empty) `"\n\n"`-join of the non-system contents. -/
theorem formatMessages_spec (l : List Msg) :
    formatMessages l =
      match specSystemPart l, specUserPart l with
      | some s, some u => s ++ "\n\n" ++ u
      | none, some u => u
      | some s, none => s
      | none, none => joinSep (l.map Msg.content) := by
  simp only [formatMessages, specSystemPart, specUserPart]
  rw [formatLoop_fst, formatLoop_snd, appendAll_none]
  cases hs : lastSysContent l with
  | none =>
    cases hu : nonSysContents l with
    | nil => simp [truthy]
    | cons c cs2 =>
      by_cases hj : joinSep (c :: cs2) = "" <;>
        simp [truthy, hj]
  | some s =>
    by_cases hse : s = ""
    · subst hse
      cases hu : nonSysContents l with
      | nil => simp [truthy]
      | cons c cs2 =>
        by_cases hj : joinSep (c :: cs2) = "" <;>
          simp [truthy, hj]
    · cases hu : nonSysContents l with
      | nil => simp [truthy, hse]
      | cons c cs2 =>
        by_cases hj : joinSep (c :: cs2) = "" <;>
          simp [truthy, hse, hj]

/-! ## Claims C4 and C10 -/

/-- C4 (counterexample): the claim predicts that when neither a system
content nor a user content exists the result is the plain concatenation
of all message contents in order; on `[system "x", system "", human ""]`
the accumulated system and user contents are both empty (falsy), the
concatenation of the contents is `"x"`, yet `_format_messages` returns
`"x\n\n\n\n"` — the `"\n\n".join` of the contents, not their
concatenation. -/
theorem format_concat_cx :
    formatMessages [Msg.system "x", Msg.system "", Msg.human ""]
        = "x\n\n\n\n" ∧
      String.join ([Msg.system "x", Msg.system "", Msg.human ""].map
        Msg.content) = "x" := by
  constructor
  · decide
  · decide

/-- C4 (amended): the flattening returns system content, `"\n\n"`,
then user content when both exist (are non-empty after accumulation);
the one that exists verbatim when only one does; and otherwise the
`"\n\n"`-join — not the plain concatenation — of all provided message
contents in their original order.  System content means the last system
message's content, user content the `"\n\n"`-join of the non-system
contents. -/
theorem format_flattening (l : List Msg) :
    formatMessages l =
      match specSystemPart l, specUserPart l with
      | some s, some u => s ++ "\n\n" ++ u
      | none, some u => u
      | some s, none => s
      | none, none => joinSep (l.map Msg.content) :=
  formatMessages_spec l

/-- C10 (counterexample): with more than one system message the claim
says only the last system content is used, yet on
`[system "abc", system "", other ""]` the last system content is `""`
and the output still contains the overwritten `"abc"`: the final
fallback branch re-reads every message content. -/
theorem format_last_system_cx :
    formatMessages [Msg.system "abc", Msg.system "", Msg.other ""]
        = "abc\n\n\n\n" ∧
      lastSysContent [Msg.system "abc", Msg.system "", Msg.other ""]
        = some "" := by
  constructor
  · decide
  · decide

/-- C10 (amended): when the last system message's content is non-empty,
the flattening uses only that content among the system messages (each
later system message overwrites the earlier one), and the user-level
and other contents are accumulated in original order joined by
`"\n\n"`; only when the last system content and the accumulated user
join are both empty can earlier system contents reappear, through the
fallback join of every message content. -/
theorem format_last_system_wins (l : List Msg) (s : String)
    (hs : lastSysContent l = some s) (hne : s ≠ "") :
    formatMessages l =
      if joinSep (nonSysContents l) = "" then s
      else s ++ "\n\n" ++ joinSep (nonSysContents l) := by
  rw [formatMessages_spec]
  simp only [specSystemPart, specUserPart, hs]
  cases hu : nonSysContents l with
  | nil => simp [hne, joinSep]
  | cons c cs =>
    by_cases hj : joinSep (c :: cs) = "" <;> simp [hne, hj]

/-- C10 (witness): the amended theorem applied to
`[system "a", system "b", human "hello"]`. -/
theorem format_last_system_wins_w :
    formatMessages [Msg.system "a", Msg.system "b", Msg.human "hello"] =
      if joinSep (nonSysContents
          [Msg.system "a", Msg.system "b", Msg.human "hello"]) = "" then "b"
      else "b" ++ "\n\n" ++ joinSep (nonSysContents
          [Msg.system "a", Msg.system "b", Msg.human "hello"]) :=
  format_last_system_wins _ "b" (by decide) (by decide)

/-! ## Claims C6 and C7 -/

/-- Whatever the loop has bound so far, the first selector in the list
accepted by `acceptStrat` is the one the strategy loop breaks on. -/
theorem locateLoopAux_first_accept (env : String → StratObs) :
    ∀ (sels : List String) (ta : Option String) (sel : String),
      sels.find? (fun s => acceptStrat s (env s)) = some sel →
      locateLoopAux env ta sels = (some sel, true) := by
  intro sels
  induction sels with
  | nil => intro ta sel h; simp [List.find?] at h
  | cons s rest ih =>
    intro ta sel h
    by_cases ha : acceptStrat s (env s) = true
    · have ha2 := ha
      simp only [acceptStrat, Bool.and_eq_true, decide_eq_true_eq]
        at ha2
      obtain ⟨⟨⟨h1, h2⟩, h3⟩, h4⟩ := ha2
      simp only [List.find?, ha] at h
      cases h
      simp [locateLoopAux, h1, h2, h3, h4]
    · have ha2 : acceptStrat s (env s) = false := by
        simpa using ha
      simp only [List.find?, ha2] at h
      by_cases h1 : 0 < (env s).cnt
      · by_cases h2 : (env s).waitVisibleOk = true
        · by_cases h3 : (env s).isVisible = true
          · by_cases h4 :
                ((env s).isEnabled || strContains s "contenteditable")
                  = true
            · have : acceptStrat s (env s) = true := by
                simp [acceptStrat, h1, h2, h3, h4]
              rw [this] at ha2
              cases ha2
            · simp [locateLoopAux, h1, h2, h3, h4, ih _ sel h]
          · simp [locateLoopAux, h1, h2, h3, ih _ sel h]
        · simp [locateLoopAux, h1, h2, ih _ sel h]
      · simp [locateLoopAux, h1, ih _ sel h]

/-- C6: the input-field locator tries its selector strategies in their
fixed priority order and binds the first whose element is present
(positive count), becomes visible within the wait, reads back as
visible, and is interactable (enabled, or a contenteditable region,
which Playwright always reports enabled); in particular if an earlier
strategy matches only a hidden element and a later one a visible
element, the later strategy's element is selected. -/
theorem locator_priority_order (env : String → StratObs)
    (inputs : List FbElem) (sel : String)
    (h : textareaSelectors.find? (fun s => acceptStrat s (env s))
      = some sel) :
    locateTextarea env inputs = Except.ok (LocRef.first sel) := by
  unfold locateTextarea
  rw [locateLoopAux_first_accept env textareaSelectors none sel h]

/-- C6 (witness): on a page where the contenteditable strategy matches
a hidden element and the placeholder strategy a visible one, the
locator returns the placeholder strategy's element. -/
theorem locator_priority_order_w :
    locateTextarea envHiddenThenVisible []
      = Except.ok (LocRef.first "textarea[placeholder*=\"Message\"]") :=
  locator_priority_order envHiddenThenVisible []
    "textarea[placeholder*=\"Message\"]" (by decide)

/-- C7 (failing input): when no strategy matches any element (all
counts zero) the final `textarea` selector still leaves the Python
variable bound to its empty locator — it is assigned before the count
check — so the `textarea is None` test fails, the last-resort fallback
scan is skipped even though it would find a visible input, and the
page-structure-changed error is never raised. -/
theorem locator_fallback_skipped :
    locateTextarea envNoStrategy fbVisibleInput
        = Except.ok (LocRef.first "textarea") ∧
      fallbackScan fbVisibleInput
        = some "div[contenteditable=\"true\"]" ∧
      (∀ s, acceptStrat s (envNoStrategy s) = false) := by
  refine ⟨by rfl, by rfl, fun s => ?_⟩
  simp [acceptStrat, envNoStrategy]

/-! ## Claim C3 -/

/-- C3 (counterexample): with `invoke` running inside a live event loop
(the thread-pool path), two consecutive raw `ConnectionLost` faults do
not surface the second failure: `_run_in_thread` retries once, the
retry's pipe fault propagates to `invoke`'s own pipe handler, and a
*third* submission runs — here it succeeds, so the caller sees a
success after two automatic retries. -/
theorem invoke_two_retries_cx :
    invokeModel false true attemptsTwoPipes = (InvokeResult.ok "hello", 3)
      := by decide

/-- C3 (amended): each layer retries at most once, so a top-level
`invoke` performs at most three submission attempts — at most two
automatic retries — and at most two attempts (a single retry) when it
is not called from inside a running event loop; when every attempt
fails, the final failure is surfaced to the caller as an error, never
retried further. -/
theorem invoke_retry_bound (g l : Bool) (a : Nat → Attempt) :
    (invokeModel g l a).2 ≤ 3 ∧
      (l = false → (invokeModel g l a).2 ≤ 2) ∧
      ((∀ k t, a k ≠ Attempt.ok t) →
        ∃ m, (invokeModel g l a).1 = InvokeResult.err m) := by
  have hp : ∀ k, (pipeRetry a k).2 = k + 1 := by
    intro k; unfold pipeRetry; cases a k <;> rfl
  have hb : ∀ k, (bareRetry a k).2 = k + 1 := by
    intro k; unfold bareRetry; cases a k <;> rfl
  have hpe : ∀ k, (∀ t, a k ≠ Attempt.ok t) →
      ∃ m, (pipeRetry a k).1 = InvokeResult.err m := by
    intro k hk
    unfold pipeRetry
    cases hak : a k with
    | ok t => exact absurd hak (hk t)
    | rawPipe => exact ⟨_, rfl⟩
    | sysErr m => exact ⟨_, rfl⟩
    | valueErr m => exact ⟨_, rfl⟩
  have hbe : ∀ k, (∀ t, a k ≠ Attempt.ok t) →
      ∃ m, (bareRetry a k).1 = InvokeResult.err m := by
    intro k hk
    unfold bareRetry
    cases hak : a k with
    | ok t => exact absurd hak (hk t)
    | rawPipe => exact ⟨_, rfl⟩
    | sysErr m => exact ⟨_, rfl⟩
    | valueErr m => exact ⟨_, rfl⟩
  cases g with
  | true =>
    refine ⟨?_, fun _ => ?_, fun hfail => ?_⟩
    · simp [invokeModel, hb]
    · simp [invokeModel, hb]
    · simpa [invokeModel] using hbe 0 (fun t => hfail 0 t)
  | false =>
    cases l with
    | true =>
      cases h0 : a 0 with
      | ok t =>
        refine ⟨?_, fun hl => absurd hl (by decide), fun hfail => ?_⟩
        · simp [invokeModel, runInThread, h0]
        · exact absurd h0 (hfail 0 t)
      | rawPipe =>
        cases h1 : a 1 with
        | ok t =>
          refine ⟨?_, fun hl => absurd hl (by decide), fun hfail => ?_⟩
          · simp [invokeModel, runInThread, h0, h1]
          · exact absurd h1 (hfail 1 t)
        | rawPipe =>
          refine ⟨?_, fun hl => absurd hl (by decide), fun hfail => ?_⟩
          · simp [invokeModel, runInThread, h0, h1, hp]
          · simpa [invokeModel, runInThread, h0, h1]
              using hpe 2 (fun t => hfail 2 t)
        | sysErr m =>
          refine ⟨?_, fun hl => absurd hl (by decide), fun hfail => ?_⟩
          · simp [invokeModel, runInThread, h0, h1, hb]
          · simpa [invokeModel, runInThread, h0, h1]
              using hbe 2 (fun t => hfail 2 t)
        | valueErr m =>
          refine ⟨?_, fun hl => absurd hl (by decide), fun hfail => ?_⟩
          · by_cases hm : (strContains m "Broken pipe" ||
                strContains m "Errno 32") = true
            · simp [invokeModel, runInThread, h0, h1, hm, hp]
            · simp [invokeModel, runInThread, h0, h1, hm]
          · by_cases hm : (strContains m "Broken pipe" ||
                strContains m "Errno 32") = true
            · simpa [invokeModel, runInThread, h0, h1, hm]
                using hpe 2 (fun t => hfail 2 t)
            · exact ⟨m, by simp [invokeModel, runInThread, h0, h1, hm]⟩
      | sysErr m =>
        refine ⟨?_, fun hl => absurd hl (by decide), fun hfail => ?_⟩
        · simp [invokeModel, runInThread, h0, hb]
        · simpa [invokeModel, runInThread, h0]
            using hbe 1 (fun t => hfail 1 t)
      | valueErr m =>
        refine ⟨?_, fun hl => absurd hl (by decide), fun hfail => ?_⟩
        · by_cases hm : (strContains m "Broken pipe" ||
              strContains m "Errno 32") = true
          · simp [invokeModel, runInThread, h0, hm, hp]
          · simp [invokeModel, runInThread, h0, hm]
        · by_cases hm : (strContains m "Broken pipe" ||
              strContains m "Errno 32") = true
          · simpa [invokeModel, runInThread, h0, hm]
              using hpe 1 (fun t => hfail 1 t)
          · exact ⟨m, by simp [invokeModel, runInThread, h0, hm]⟩
    | false =>
      cases h0 : a 0 with
      | ok t =>
        refine ⟨?_, fun _ => ?_, fun hfail => ?_⟩
        · simp [invokeModel, h0]
        · simp [invokeModel, h0]
        · exact absurd h0 (hfail 0 t)
      | rawPipe =>
        refine ⟨?_, fun _ => ?_, fun hfail => ?_⟩
        · simp [invokeModel, h0, hp]
        · simp [invokeModel, h0, hp]
        · simpa [invokeModel, h0] using hpe 1 (fun t => hfail 1 t)
      | sysErr m =>
        refine ⟨?_, fun _ => ?_, fun hfail => ?_⟩
        · simp [invokeModel, h0, hb]
        · simp [invokeModel, h0, hb]
        · simpa [invokeModel, h0] using hbe 1 (fun t => hfail 1 t)
      | valueErr m =>
        refine ⟨?_, fun _ => ?_, fun hfail => ?_⟩
        · by_cases hm : (strContains m "Broken pipe" ||
              strContains m "Errno 32") = true
          · simp [invokeModel, h0, hm, hp]
          · simp [invokeModel, h0, hm]
        · by_cases hm : (strContains m "Broken pipe" ||
              strContains m "Errno 32") = true
          · simp [invokeModel, h0, hm, hp]
          · simp [invokeModel, h0, hm]
        · by_cases hm : (strContains m "Broken pipe" ||
              strContains m "Errno 32") = true
          · simpa [invokeModel, h0, hm]
              using hpe 1 (fun t => hfail 1 t)
          · exact ⟨m, by simp [invokeModel, h0, hm]⟩

/-- C3 (witness): the amended theorem applied to the direct
(no-running-loop) path with every attempt failing: at most two
attempts, and the result is an error. -/
theorem invoke_retry_bound_w :
    (invokeModel false false attemptsAllPipes).2 ≤ 2 ∧
      ∃ m, (invokeModel false false attemptsAllPipes).1
        = InvokeResult.err m :=
  ⟨(invoke_retry_bound false false attemptsAllPipes).2.1 rfl,
    (invoke_retry_bound false false attemptsAllPipes).2.2
      (fun k t h => by simp [attemptsAllPipes] at h)⟩

/-! ## Claims C5, C8 and C9 -/

/-- Whatever happens after a successful launch, the launch and
forced-cleanup counters reaching `initAfterLaunch` are final. -/
theorem initAfterLaunch_stats (headless : Bool) (env : InitEnv)
    (s : SessionState) (ctx launches cleanups : Nat) :
    (initAfterLaunch headless env s ctx launches cleanups).launches
        = launches ∧
      (initAfterLaunch headless env s ctx launches cleanups).forcedCleanups
        = cleanups := by
  unfold initAfterLaunch
  constructor <;> (repeat' split) <;>
    first
      | rfl
      | (dsimp only; split <;> rfl)

/-- C5: `_initialize` is idempotent on an initialized session — it
returns immediately with no launch, no cleanup, no login polling and no
change to the session fields, so the same context and page (the same
session identity) are retained. -/
theorem initialize_idempotent (headless : Bool) (env : InitEnv)
    (s : SessionState) (h : s.initialized = true) :
    initModel headless env s =
      { result := Except.ok (), state := s, launches := 0,
        forcedCleanups := 0, loginPolls := 0 } := by
  simp [initModel, h]

/-- C5 (witness): the theorem applied to an open session in a world
that needs login — nothing of it is consulted. -/
theorem initialize_idempotent_w :
    initModel true envLoginNeeded openSession =
      { result := Except.ok (), state := openSession, launches := 0,
        forcedCleanups := 0, loginPolls := 0 } :=
  initialize_idempotent true envLoginNeeded openSession rfl

/-- C8: when the first launch fails with the profile-lock signature,
exactly one forced cleanup pass and exactly one relaunch happen, and a
second failure surfaces as the close-other-instances configuration
error; a first failure without the lock signature is re-raised with no
cleanup pass and no relaunch. -/
theorem launch_retry_discipline (headless : Bool) (env : InitEnv)
    (s : SessionState) (m : String) (hs : s.initialized = false)
    (hf : env.firstLaunch = LaunchOutcome.err m) :
    (lockIndicated m = true →
      (initModel headless env s).launches = 2 ∧
        (initModel headless env s).forcedCleanups = 1 ∧
        (∀ m2, env.secondLaunch = LaunchOutcome.err m2 →
          (initModel headless env s).result
            = Except.error (failedStartMsg m2))) ∧
      (lockIndicated m = false →
        (initModel headless env s).result = Except.error m ∧
          (initModel headless env s).launches = 1 ∧
          (initModel headless env s).forcedCleanups = 0) := by
  constructor
  · intro hlock
    cases h2 : env.secondLaunch with
    | ok ctx =>
      refine ⟨?_, ?_, fun m2 hm2 => ?_⟩
      · simp [initModel, hs, hf, hlock, h2,
          (initAfterLaunch_stats headless env s ctx 2 1).1]
      · simp [initModel, hs, hf, hlock, h2,
          (initAfterLaunch_stats headless env s ctx 2 1).2]
      · cases hm2
    | err m2 =>
      refine ⟨?_, ?_, fun m3 hm3 => ?_⟩
      · simp [initModel, hs, hf, hlock, h2]
      · simp [initModel, hs, hf, hlock, h2]
      · cases hm3
        simp [initModel, hs, hf, hlock, h2]
  · intro hlock
    refine ⟨?_, ?_, ?_⟩ <;> simp [initModel, hs, hf, hlock]

/-- C8 (witness): both launches fail with the `ProcessSingleton`
signature: two launch attempts, one forced cleanup, and the
configuration error. -/
theorem launch_retry_discipline_w :
    (initModel true envLockedTwice freshSession).launches = 2 ∧
      (initModel true envLockedTwice freshSession).forcedCleanups = 1 ∧
      (initModel true envLockedTwice freshSession).result
        = Except.error (failedStartMsg "Browser error: ProcessSingleton")
    := by
  have h := (launch_retry_discipline true envLockedTwice freshSession
    "Browser error: ProcessSingleton" rfl rfl).1 (by decide)
  exact ⟨h.1, h.2.1, h.2.2 _ rfl⟩

/-- Running the login wait with an input that never becomes visible
performs all 150 polls and reports no login. -/
theorem loginWaitF_never :
    loginWaitF (fun _ => false) 151 0 0 = (false, 150) := by decide

/-- C9: when a login indicator is present after a successful launch and
navigation, headless mode fails immediately with the
rerun-visible-mode instruction and performs zero login polls, while
visible mode with an input that never appears polls the full bounded
wait (150 polls of the 300-second bound) and then fails with the login
timeout error. -/
theorem login_mode_policy (env : InitEnv) (s : SessionState) (ctx : Nat)
    (hs : s.initialized = false)
    (hf : env.firstLaunch = LaunchOutcome.ok ctx)
    (hg : env.gotoTimesOut = false)
    (hl : env.needsLogin = true) :
    ((initModel true env s).result = Except.error headlessLoginMsg ∧
        (initModel true env s).loginPolls = 0) ∧
      (env.inputVisible = (fun _ => false) →
        (initModel false env s).result = Except.error loginTimeoutMsg ∧
          (initModel false env s).loginPolls = 150) := by
  constructor
  · constructor <;> simp [initModel, hs, hf, initAfterLaunch, hg, hl]
  · intro hv
    constructor <;>
      simp [initModel, hs, hf, initAfterLaunch, hg, hl, hv,
        loginWaitF_never]

/-- C9 (witness): the theorem applied to a world that needs login and
whose chat input never appears. -/
theorem login_mode_policy_w :
    ((initModel true envLoginNeeded freshSession).result
          = Except.error headlessLoginMsg ∧
        (initModel true envLoginNeeded freshSession).loginPolls = 0) ∧
      ((initModel false envLoginNeeded freshSession).result
          = Except.error loginTimeoutMsg ∧
        (initModel false envLoginNeeded freshSession).loginPolls = 150)
    := by
  have h := login_mode_policy envLoginNeeded freshSession 7 rfl rfl rfl rfl
  exact ⟨h.1, h.2 rfl⟩

/-! ## Claims C1 and C2 -/

/-- If no above-baseline selector ever shows text longer than the
threshold, the candidate scan never accepts. -/
theorem tryAcceptFrom_no_accept (env : Nat → Dom) (initial : Nat)
    (H : ∀ t i, initial < (env t).counts.getD i 0 →
      (strTrim ((env t).texts.getD i "")).length ≤ 10) :
    ∀ (l : List Nat) (t : Nat), (tryAcceptFrom env initial l t).1 = false := by
  intro l
  induction l with
  | nil => intro t; rfl
  | cons i rest ih =>
    intro t
    by_cases hc : initial < (env t).counts.getD i 0
    · have hnp : ¬((env t).texts.getD i "" ≠ "" ∧
          strTrim ((env t).texts.getD i "") ≠ "" ∧
          10 < (strTrim ((env t).texts.getD i "")).length) := by
        intro hcontra
        exact absurd hcontra.2.2 (Nat.not_lt.mpr (H t i hc))
      simp only [tryAcceptFrom]
      rw [if_pos hc, if_neg hnp]
      exact ih t
    · simp only [tryAcceptFrom]
      rw [if_neg hc]
      exact ih t

/-- Under the same condition the poll loop never sets
`response_found`. -/
theorem pollLoopF_no_accept (env : Nat → Dom) (initial : Nat)
    (H : ∀ t i, initial < (env t).counts.getD i 0 →
      (strTrim ((env t).texts.getD i "")).length ≤ 10) :
    ∀ (fuel t w : Nat), (pollLoopF env initial fuel t w).1 = false := by
  intro fuel
  induction fuel with
  | zero => intro t w; rfl
  | succ fuel ih =>
    intro t w
    by_cases hw : w < maxPollWait
    · have ha := tryAcceptFrom_no_accept env initial H responseIdx t
      rcases hr : tryAcceptFrom env initial responseIdx t with ⟨b, t2⟩
      rw [hr] at ha
      simp only at ha
      subst ha
      simp [pollLoopF, hw, hr, ih]
    · simp [pollLoopF, hw]

/-- Under the same condition the post-loop extraction pass extracts
nothing. -/
theorem extractFrom_no_extract (env : Nat → Dom) (initial : Nat)
    (H : ∀ t i, initial < (env t).counts.getD i 0 →
      (strTrim ((env t).texts.getD i "")).length ≤ 10) :
    ∀ (l : List Nat) (t : Nat), (extractFrom env initial l t).1 = none := by
  intro l
  induction l with
  | nil => intro t; rfl
  | cons i rest ih =>
    intro t
    by_cases hc : initial < (env t).counts.getD i 0
    · have hnp : ¬((env t).texts.getD i "" ≠ "" ∧
          strTrim ((env t).texts.getD i "") ≠ "" ∧
          10 < (strTrim ((env t).texts.getD i "")).length) := by
        intro hcontra
        exact absurd hcontra.2.2 (Nat.not_lt.mpr (H t i hc))
      simp only [extractFrom]
      rw [if_pos hc, if_neg hnp]
      exact ih t
    · simp only [extractFrom]
      rw [if_neg hc]
      exact ih t

/-- C1 (counterexample): an assistant turn with long text is present
from the start but a busy indicator never clears, so the loop's
acceptance conditions are never met during polling and the loop times
out with `response_found` still false (at clock 228, after the full 90
seconds of counted waits); the claim demands a timeout error, yet the
call returns the text through the post-loop extraction pass, which
never re-checks the busy indicator. -/
theorem poll_timeout_cx :
    pollLoopF envBusyForever 0 46 3 0 = (false, 228) ∧
      pollForResponse envBusyForever 0
        = SendOutcome.ok "This is a long answer." ∧
      (envBusyForever 228).busy = true := by
  refine ⟨by decide, by decide, by decide⟩

/-- C1 (amended): if the poll bound elapses without a qualifying
response and the post-loop extraction passes also find no qualifying
content — no selector's count ever exceeds the baseline with trimmed
text longer than the threshold — the call raises the no-response error
rather than returning text; qualifying content found by the post-loop
passes is, however, returned as a last-resort extraction even after the
bound has elapsed. -/
theorem poll_no_qualifying (env : Nat → Dom) (initial : Nat)
    (H : ∀ t i, initial < (env t).counts.getD i 0 →
      (strTrim ((env t).texts.getD i "")).length ≤ 10) :
    (pollLoopF env initial 46 3 0).1 = false ∧
      pollForResponse env initial = SendOutcome.err noResponseMsg := by
  refine ⟨pollLoopF_no_accept env initial H 46 3 0, ?_⟩
  rcases hx : extractFrom env initial responseIdx
      (pollLoopF env initial 46 3 0).2 with ⟨o, t2⟩
  have ho : o = none := by
    have h := extractFrom_no_extract env initial H responseIdx
      (pollLoopF env initial 46 3 0).2
    rw [hx] at h
    exact h
  subst ho
  have hcond : ¬(pageTextEval env initial t2 ≠ "" ∧
      strTrim (pageTextEval env initial t2) ≠ "" ∧
      10 < (strTrim (pageTextEval env initial t2)).length) := by
    intro hcontra
    rcases hf : responseIdx.find?
        (fun i => decide (initial < (env t2).counts.getD i 0)) with _ | i
    · have hpt : pageTextEval env initial t2 = "" := by
        simp only [pageTextEval]
        rw [hf]
      exact hcontra.1 hpt
    · have hc : initial < (env t2).counts.getD i 0 := by
        have h2 := List.find?_some hf
        simpa using h2
      have hpt : pageTextEval env initial t2
          = (env t2).texts.getD i "" := by
        simp only [pageTextEval]
        rw [hf]
      rw [hpt] at hcontra
      exact absurd hcontra.2.2 (Nat.not_lt.mpr (H t2 i hc))
  simp only [pollForResponse]
  rw [hx]
  simp [hcond]

/-- C1 (witness): on a page where nothing ever appears, the loop times
out and the call raises the no-response error. -/
theorem poll_no_qualifying_w :
    (pollLoopF envEmptyPage 0 46 3 0).1 = false ∧
      pollForResponse envEmptyPage 0 = SendOutcome.err noResponseMsg :=
  poll_no_qualifying envEmptyPage 0 (fun t i h => by
    have hz : (envEmptyPage t).counts.getD i 0 = 0 := by
      match i with
      | 0 | 1 | 2 | 3 | 4 => rfl
      | n + 5 => rfl
    rw [hz] at h
    exact absurd h (lt_irrefl 0))

/-- C2 (counterexample): the accepted candidate's text is long at the
qualifying check, but the post-loop re-read — required only to be
non-empty — returns the two-character `"Hi"` even though the turn count
has increased, contradicting the claim that a turn with text at or
below the threshold is never returned. -/
theorem poll_short_reread_cx :
    pollForResponse envShrinksToHi 0 = SendOutcome.ok "Hi" ∧
      (strTrim "Hi").length ≤ 10 ∧
      0 < (envShrinksToHi 8).counts.getD 0 0 := by
  refine ⟨by decide, by decide, by decide⟩

/-- Inversion of the candidate scan: an acceptance pins down a selector
in the scanned list, a qualifying observation (count above baseline,
non-empty trimmed text longer than 10) three seconds before the exit
clock, and no busy indicator at the exit clock. -/
theorem tryAcceptFrom_inv (env : Nat → Dom) (initial : Nat) :
    ∀ (l : List Nat) (t t2 : Nat),
      tryAcceptFrom env initial l t = (true, t2) →
      ∃ i ∈ l, ∃ u, t2 = u + 3 ∧
        initial < (env u).counts.getD i 0 ∧
        strTrim ((env u).texts.getD i "") ≠ "" ∧
        10 < (strTrim ((env u).texts.getD i "")).length ∧
        (env (u + 3)).busy = false := by
  intro l
  induction l with
  | nil => intro t t2 h; simp [tryAcceptFrom] at h
  | cons i rest ih =>
    intro t t2 h
    by_cases hc : initial < (env t).counts.getD i 0
    · by_cases htxt : (env t).texts.getD i "" ≠ "" ∧
          strTrim ((env t).texts.getD i "") ≠ "" ∧
          10 < (strTrim ((env t).texts.getD i "")).length
      · by_cases hbusy : (env (t + 3)).busy = true
        · rw [show tryAcceptFrom env initial (i :: rest) t
              = tryAcceptFrom env initial rest (t + 3) by
            simp only [tryAcceptFrom]
            rw [if_pos hc, if_pos htxt, if_pos hbusy]] at h
          obtain ⟨j, hj, u, hu⟩ := ih (t + 3) t2 h
          exact ⟨j, List.mem_cons_of_mem i hj, u, hu⟩
        · rw [show tryAcceptFrom env initial (i :: rest) t
              = (true, t + 3) by
            simp only [tryAcceptFrom]
            rw [if_pos hc, if_pos htxt, if_neg hbusy]] at h
          have ht2 : t2 = t + 3 := by
            have h2 := congrArg Prod.snd h
            simp at h2
            omega
          exact ⟨i, List.mem_cons_self i rest, t, ht2, hc, htxt.2.1,
            htxt.2.2, by simpa using hbusy⟩
      · rw [show tryAcceptFrom env initial (i :: rest) t
            = tryAcceptFrom env initial rest t by
          simp only [tryAcceptFrom]
          rw [if_pos hc, if_neg htxt]] at h
        obtain ⟨j, hj, u, hu⟩ := ih t t2 h
        exact ⟨j, List.mem_cons_of_mem i hj, u, hu⟩
    · rw [show tryAcceptFrom env initial (i :: rest) t
          = tryAcceptFrom env initial rest t by
        simp only [tryAcceptFrom]
        rw [if_neg hc]] at h
      obtain ⟨j, hj, u, hu⟩ := ih t t2 h
      exact ⟨j, List.mem_cons_of_mem i hj, u, hu⟩

/-- C2 (amended): whenever the poll loop sets `response_found`, some
response selector was observed with element count strictly above the
pre-submission baseline and with trimmed text non-empty and longer
than the 10-character threshold, and no busy indicator was present
after the 3-second settle pause, at the moment of acceptance; the text
ultimately returned, however, is a post-loop re-read required only to
be non-empty, so a re-read shorter than the threshold can be
returned. -/
theorem poll_accept_conditions (env : Nat → Dom) (initial : Nat) :
    ∀ (fuel t w t2 : Nat),
      pollLoopF env initial fuel t w = (true, t2) →
      ∃ i ∈ responseIdx, ∃ u, t2 = u + 3 ∧
        initial < (env u).counts.getD i 0 ∧
        strTrim ((env u).texts.getD i "") ≠ "" ∧
        10 < (strTrim ((env u).texts.getD i "")).length ∧
        (env (u + 3)).busy = false := by
  intro fuel
  induction fuel with
  | zero => intro t w t2 h; simp [pollLoopF] at h
  | succ fuel ih =>
    intro t w t2 h
    by_cases hw : w < maxPollWait
    · rcases hr : tryAcceptFrom env initial responseIdx t with ⟨b, t3⟩
      cases b with
      | true =>
        rw [show pollLoopF env initial (fuel + 1) t w = (true, t3) by
          simp [pollLoopF, hw, hr]] at h
        simp only [Prod.mk.injEq] at h
        exact h.2 ▸ tryAcceptFrom_inv env initial responseIdx t t3 hr
      | false =>
        rw [show pollLoopF env initial (fuel + 1) t w
            = pollLoopF env initial fuel (t3 + 2) (w + 2) by
          simp [pollLoopF, hw, hr]] at h
        exact ih (t3 + 2) (w + 2) t2 h
    · simp [pollLoopF, hw] at h

/-- C2 (witness): on a page with an immediate settled long reply the
loop accepts at clock 6, and the theorem recovers the qualifying
observation. -/
theorem poll_accept_conditions_w :
    pollLoopF envQuickReply 0 46 3 0 = (true, 6) ∧
      ∃ i ∈ responseIdx, ∃ u, 6 = u + 3 ∧
        0 < (envQuickReply u).counts.getD i 0 ∧
        strTrim ((envQuickReply u).texts.getD i "") ≠ "" ∧
        10 < (strTrim ((envQuickReply u).texts.getD i "")).length ∧
        (envQuickReply (u + 3)).busy = false :=
  ⟨by decide, poll_accept_conditions envQuickReply 0 46 3 0 6 (by decide)⟩

end ChatGPTWeb
